import Mathlib

/-!
# Verification of the E-Commerce API checkout service

Shallow embedding of the Express/PostgreSQL service in `server.js`, together
with its SQL schema (`users`, `products`, `orders`, `order_items`).
Relational rows become structures, the database becomes lists of rows, and
each HTTP handler becomes a pure state transition.  JavaScript number
arithmetic in the checkout handler is modelled by binary64 rounding over
the rationals.
-/

namespace ECom

/-! ## IEEE-754 binary64 model

`server.js` computes the order total with JavaScript numbers
(`totalAmount += parseFloat(item.price) * item.quantity`), i.e. IEEE-754
binary64 arithmetic: every operation computes the exact rational result and
rounds it to 53 significant bits, ties to even.  We model that rounding over
`ℚ` (exponent range is irrelevant at the magnitudes of this service, so
overflow and subnormals are not modelled). -/

/-- Fuelled base-2 logarithm on `Nat` (structural recursion so that the
kernel can evaluate it). -/
def log2Aux : Nat → Nat → Nat
  | 0, _ => 0
  | f + 1, n => if 2 ≤ n then log2Aux f (n / 2) + 1 else 0

/-- `natLog2 n = ⌊log₂ n⌋` for `n ≥ 1` (and `0` for `n = 0`). -/
def natLog2 (n : Nat) : Nat := log2Aux n n

/-- `pow2 k = 2 ^ k` as a rational, for `k : ℤ`. -/
def pow2 (k : Int) : ℚ :=
  if 0 ≤ k then ((2 ^ k.toNat : ℕ) : ℚ) else 1 / ((2 ^ (-k).toNat : ℕ) : ℚ)

/-- `⌊log₂ x⌋` for a positive rational `x`. -/
def ratLog2 (x : ℚ) : Int :=
  let a : Int := natLog2 x.num.natAbs
  let b : Int := natLog2 x.den
  if x < pow2 (a - b) then a - b - 1 else a - b

/-- Floor of a nonnegative rational. -/
def posFloor (q : ℚ) : Int := (q.num.toNat / q.den : Nat)

/-- Round a rational to the nearest binary64 value (round to nearest, ties
to even, 53-bit significand; exponent limits ignored). -/
def fpRound (q : ℚ) : ℚ :=
  if q = 0 then 0
  else
    let x : ℚ := if q < 0 then -q else q
    let e : Int := ratLog2 x
    let scaled : ℚ := x * pow2 (52 - e)
    let fl : Int := posFloor scaled
    let frac : ℚ := scaled - (fl : ℚ)
    let m : Int :=
      if frac < 1 / 2 then fl
      else if 1 / 2 < frac then fl + 1
      else if fl % 2 = 0 then fl else fl + 1
    (if q < 0 then -(m : ℚ) else (m : ℚ)) * pow2 (e - 52)

/-- Binary64 addition: exact sum, then rounding. -/
def fpAdd (a b : ℚ) : ℚ := fpRound (a + b)

/-- Binary64 multiplication: exact product, then rounding. -/
def fpMul (a b : ℚ) : ℚ := fpRound (a * b)

/-! ## Data model

One structure per relation of the SQL schema (`part_000`).  `users` rows
never matter to the verified claims beyond the identity carried by a JWT,
so they are not materialised.  `NUMERIC(10,2)` columns are exact decimals,
embedded as `ℚ`; `INTEGER` columns are embedded as `ℤ` (the schema has no
positivity `CHECK` constraint). -/

/-- A `products` row. -/
structure Product where
  id : Nat
  name : String
  description : Option String
  price : ℚ
  stock : Int
  imageUrl : Option String
deriving DecidableEq, Repr

/-- An `order_items` row.  `orderId = none` (SQL `NULL`) means the line is
in the cart and not yet bound to an order; `price` is the unit-price
snapshot captured when the line was inserted. -/
structure CartLine where
  id : Nat
  orderId : Option Nat
  productId : Nat
  quantity : Int
  price : ℚ
deriving DecidableEq, Repr

/-- An `orders` row. -/
structure Order where
  id : Nat
  userId : Nat
  totalAmount : ℚ
  status : String
deriving DecidableEq, Repr

/-- The relational store: the three business tables plus the `SERIAL`
sequences that assign fresh primary keys. -/
structure DB where
  products : List Product
  orderItems : List CartLine
  orders : List Order
  nextProductId : Nat
  nextItemId : Nat
  nextOrderId : Nat
deriving DecidableEq, Repr

/-! ## JavaScript truthiness

The handlers validate request bodies with expressions like
`if (!name || !price || !stock)`.  A missing JSON field is `undefined`
(falsy); for the values representable here, a string is falsy exactly when
it is empty and a number exactly when it is zero. -/

/-- Falsiness of an optional string field of a JSON body. -/
def jsFalsyStr : Option String → Bool
  | none => true
  | some s => s = ""

/-- Falsiness of an optional numeric (decimal) field of a JSON body. -/
def jsFalsyRat : Option ℚ → Bool
  | none => true
  | some q => q = 0

/-- Falsiness of an optional integer field of a JSON body. -/
def jsFalsyInt : Option Int → Bool
  | none => true
  | some n => n = 0

/-! ## Authentication middleware (`verifyToken`, server.js 40-55) -/

/-- The JWT payload signed at login: `{ userId: user.id, email: user.email }`. -/
structure AuthUser where
  userId : Nat
  email : String
deriving DecidableEq, Repr

/-- Character-level splitter with the semantics of JavaScript
`String.prototype.split` at a single-character separator (consecutive
separators produce empty fragments, exactly as in JS and in SQL-free Lean
`String.splitOn`; a char-level definition is used so that the kernel can
evaluate it). -/
def splitAux (sep : Char) : List Char → List Char → List String
  | [], acc => [String.mk acc.reverse]
  | c :: cs, acc =>
    if c = sep then String.mk acc.reverse :: splitAux sep cs []
    else splitAux sep cs (c :: acc)

/-- `s.split(sep)` of JavaScript. -/
def jsSplit (s : String) (sep : Char) : List String :=
  splitAux sep s.data []

/-- `const token = authHeader && authHeader.split(' ')[1]` — for a missing
or empty header the `&&` short-circuits to the header itself, and only a
missing header compares `== null`; otherwise the part after the first
space is the candidate token (`undefined`, i.e. `none`, if there is none). -/
def extractToken : Option String → Option String
  | none => none
  | some h => if h = "" then some "" else (jsSplit h ' ').get? 1

/-- Outcome of the `verifyToken` middleware. -/
inductive AuthOutcome where
  | missing                 -- 401, handler never invoked
  | invalid                 -- 403, handler never invoked
  | ok (user : AuthUser)    -- next(): handler runs with `req.user`
deriving DecidableEq, Repr

/-- The middleware itself; `validate` abstracts `jwt.verify` (returning
`none` on an invalid or expired signature). -/
def verifyToken (validate : String → Option AuthUser) (header : Option String) :
    AuthOutcome :=
  match extractToken header with
  | none => .missing
  | some t =>
    match validate t with
    | none => .invalid
    | some u => .ok u

/-- HTTP status observed by the client of a protected route whose handler
answers `handlerStatus req.user`. -/
def protectedStatus (validate : String → Option AuthUser) (header : Option String)
    (handlerStatus : AuthUser → Nat) : Nat :=
  match verifyToken validate header with
  | .missing => 401
  | .invalid => 403
  | .ok u => handlerStatus u

/-! ## POST /api/products (server.js 144-169) -/

/-- JSON body of `POST /api/products`. -/
structure CreateProductRequest where
  name : Option String
  description : Option String
  price : Option ℚ
  stock : Option Int
  image_url : Option String
deriving DecidableEq, Repr

/-- Outcome of `POST /api/products`. -/
inductive CreateProductResult where
  | created (p : Product)   -- 201
  | badRequest              -- 400 "Name, price, and stock are required."
deriving DecidableEq, Repr

/-- `POST /api/products`: reject when `!name || !price || !stock`, else
insert the row and return it. -/
def createProduct (req : CreateProductRequest) (db : DB) :
    CreateProductResult × DB :=
  if jsFalsyStr req.name || jsFalsyRat req.price || jsFalsyInt req.stock then
    (.badRequest, db)
  else
    let p : Product :=
      { id := db.nextProductId
        name := req.name.getD ""
        description := req.description
        price := req.price.getD 0
        stock := req.stock.getD 0
        imageUrl := req.image_url }
    (.created p,
      { db with products := db.products ++ [p], nextProductId := db.nextProductId + 1 })

/-! ## PUT /api/products/:id (server.js 172-204) -/

/-- JSON body of `PUT /api/products/:id`; absent fields arrive as SQL
`NULL` parameters and `COALESCE` keeps the stored value. -/
structure UpdateProductRequest where
  name : Option String
  description : Option String
  price : Option ℚ
  stock : Option Int
  image_url : Option String
deriving DecidableEq, Repr

/-- `COALESCE(new, old)` for a `NOT NULL` column. -/
def coalesce {α : Type} (new : Option α) (old : α) : α := new.getD old

/-- `COALESCE(new, old)` for a nullable column. -/
def coalesceOpt {α : Type} (new : Option α) (old : Option α) : Option α :=
  match new with
  | some v => some v
  | none => old

/-- `PUT /api/products/:id`: update every provided field of the matching
row; `none` result means 404. -/
def updateProduct (id : Nat) (req : UpdateProductRequest) (db : DB) :
    Option Product × DB :=
  let upd : Product → Product := fun p =>
    { p with
      name := coalesce req.name p.name
      description := coalesceOpt req.description p.description
      price := coalesce req.price p.price
      stock := coalesce req.stock p.stock
      imageUrl := coalesceOpt req.image_url p.imageUrl }
  match db.products.find? (fun p => p.id = id) with
  | none => (none, db)
  | some p =>
    (some (upd p),
      { db with products := db.products.map (fun q => if q.id = id then upd q else q) })

/-! ## POST /api/cart (server.js 230-264) -/

/-- JSON body of `POST /api/cart`. -/
structure AddCartRequest where
  product_id : Option Nat
  quantity : Option Int
deriving DecidableEq, Repr

/-- Outcome of `POST /api/cart`. -/
inductive AddCartResult where
  | created (item : CartLine)  -- 201
  | badRequest                 -- 400 "Product ID and quantity are required."
  | notFound                   -- 404 "Product not found."
deriving DecidableEq, Repr

/-- `POST /api/cart`: after the `!product_id || !quantity` falsiness check,
look the product up, snapshot its current price, and insert an
`order_items` row with `order_id = NULL`.  The handler reads
`req.user.userId` but never uses it: the inserted line carries no user. -/
def addToCart (_userId : Nat) (req : AddCartRequest) (db : DB) :
    AddCartResult × DB :=
  match req.product_id, req.quantity with
  | some pid, some q =>
    if pid = 0 || q = 0 then (.badRequest, db)
    else
      match db.products.find? (fun p => p.id = pid) with
      | none => (.notFound, db)
      | some p =>
        let line : CartLine :=
          { id := db.nextItemId, orderId := none, productId := pid,
            quantity := q, price := p.price }
        (.created line,
          { db with orderItems := db.orderItems ++ [line],
                    nextItemId := db.nextItemId + 1 })
  | _, _ => (.badRequest, db)

/-! ## GET /api/cart (server.js 267-288) -/

/-- A row of the `GET /api/cart` response (cart line joined with product
name and image). -/
structure CartView where
  product_id : Nat
  quantity : Int
  price : ℚ
  product_name : String
  image_url : Option String
deriving DecidableEq, Repr

/-- `GET /api/cart`: every `order_items` row with `order_id IS NULL`,
joined with `products` on the primary key (`id` is a primary key, so
`find?` locates the unique matching row).  No user filter appears in the
query. -/
def getCart (db : DB) : List CartView :=
  db.orderItems.filterMap (fun oi =>
    if oi.orderId.isNone then
      (db.products.find? (fun p => p.id = oi.productId)).map (fun p =>
        { product_id := oi.productId, quantity := oi.quantity, price := oi.price,
          product_name := p.name, image_url := p.imageUrl })
    else none)

/-! ## POST /api/checkout (server.js 291-374)

The handler opens a dedicated connection, runs `BEGIN`, and issues every
statement on that connection; `COMMIT` publishes the writes and every other
exit path issues `ROLLBACK`.  The embedding therefore computes the updated
tables locally and installs them only on the commit path; every rejection
path returns the original state.  `crash` models an exception thrown by
any statement of the transaction body (lost connection, constraint
violation, ...), which the `catch` block turns into `ROLLBACK` + 500. -/

/-- A row of the checkout `SELECT`, which joins each unassigned cart line
with its product: `oi.id, oi.product_id, oi.quantity, p.price, p.stock`.
Note the price read here is the *catalog* price `p.price`, not the
snapshot `oi.price`. -/
structure CheckoutItem where
  itemId : Nat
  productId : Nat
  quantity : Int
  price : ℚ
  stock : Int
deriving DecidableEq, Repr

/-- The checkout `SELECT ... FROM order_items oi JOIN products p ON
oi.product_id = p.id WHERE oi.order_id IS NULL` (`id` is a primary key, so
`find?` locates the unique matching product row). -/
def cartItemsOf (db : DB) : List CheckoutItem :=
  db.orderItems.filterMap (fun oi =>
    if oi.orderId.isNone then
      (db.products.find? (fun p => p.id = oi.productId)).map (fun p =>
        { itemId := oi.id, productId := oi.productId, quantity := oi.quantity,
          price := p.price, stock := p.stock })
    else none)

/-- `totalAmount += parseFloat(item.price) * item.quantity`, starting from
`let totalAmount = 0`: a binary64 left fold over the selected lines. -/
def totalAmountJs (items : List CheckoutItem) : ℚ :=
  items.foldl (fun acc it => fpAdd acc (fpMul (fpRound it.price) (it.quantity : ℚ))) 0

/-- One queued `UPDATE products SET stock = stock - $1 WHERE id = $2`. -/
def applyStockUpdate (ps : List Product) (pid : Nat) (q : Int) : List Product :=
  ps.map (fun p => if p.id = pid then { p with stock := p.stock - q } else p)

/-- The whole batch of queued stock updates, in queue order. -/
def applyStockUpdates (ps : List Product) (items : List CheckoutItem) : List Product :=
  items.foldl (fun acc it => applyStockUpdate acc it.productId it.quantity) ps

/-- `UPDATE order_items SET order_id = $1 WHERE order_id IS NULL` — binds
every currently unassigned line (the `WHERE` clause re-selects; it is not
restricted to the rows returned by the join). -/
def bindCartLines (lines : List CartLine) (oid : Nat) : List CartLine :=
  lines.map (fun oi => if oi.orderId.isNone then { oi with orderId := some oid } else oi)

/-- `NUMERIC(10,2)` assignment: Postgres rounds half away from zero to two
decimal places.  (The driver serialises the JS number as its shortest
round-tripping decimal; we round the exact binary64 value, which agrees
except when that shortest representation straddles a half-cent boundary —
never the case at the inputs considered here.) -/
def roundCents (q : ℚ) : ℚ :=
  if q < 0 then -((posFloor (-q * 100 + 1 / 2) : ℚ) / 100)
  else (posFloor (q * 100 + 1 / 2) : ℚ) / 100

/-- Outcome of `POST /api/checkout`. -/
inductive CheckoutResult where
  | success (orderId : Nat) (totalAmount : ℚ)  -- 200, body {order_id, total_amount}
  | emptyCart                                  -- 400 "Your cart is empty."
  | insufficientStock (productId : Nat)        -- 400 "Insufficient stock for product ID _."
  | internalError                              -- 500 after catch + ROLLBACK
deriving DecidableEq, Repr

/-- `true` exactly on the 200 outcome. -/
def CheckoutResult.isSuccess : CheckoutResult → Bool
  | .success _ _ => true
  | _ => false

/-- `POST /api/checkout`.  Steps, in the statement order seen by the
database: `BEGIN`; the join `SELECT`; empty-cart rejection; per-line stock
check against the stock value read by the `SELECT` (queueing one stock
`UPDATE` per line and accumulating the float total); `INSERT INTO orders`;
`UPDATE order_items`; `COMMIT`.  Rejections and the `catch` path issue
`ROLLBACK`, so the pre-call state is returned there. -/
def checkoutF (crash : Bool) (userId : Nat) (db : DB) : CheckoutResult × DB :=
  if crash then (.internalError, db)
  else
    let cartItems := cartItemsOf db
    if cartItems.isEmpty then (.emptyCart, db)
    else
      match cartItems.find? (fun it => it.stock < it.quantity) with
      | some it => (.insufficientStock it.productId, db)
      | none =>
        let totalAmount := totalAmountJs cartItems
        let products1 := applyStockUpdates db.products cartItems
        let oid := db.nextOrderId
        let newOrder : Order :=
          { id := oid, userId := userId, totalAmount := roundCents totalAmount,
            status := "completed" }
        let items1 := bindCartLines db.orderItems oid
        (.success oid totalAmount,
          { db with products := products1,
                    orderItems := items1,
                    orders := db.orders ++ [newOrder],
                    nextOrderId := oid + 1 })

/-- A checkout request on which no statement of the transaction fails. -/
def checkout (userId : Nat) (db : DB) : CheckoutResult × DB :=
  checkoutF false userId db

/-- Exact sum of `quantity × unit-price snapshot` over the unassigned cart
lines — the total the specification prescribes for a checkout. -/
def snapshotTotal (db : DB) : ℚ :=
  ((db.orderItems.filter (fun oi => oi.orderId.isNone)).map
    (fun oi => (oi.quantity : ℚ) * oi.price)).sum

/-- Aggregate quantity the selected cart lines request of one product. -/
def requestedQty (items : List CheckoutItem) (pid : Nat) : Int :=
  ((items.filter (fun it => it.productId = pid)).map (fun it => it.quantity)).sum

/-- The committed state of a successful checkout, written out table by
table. -/
def commitState (u : Nat) (db : DB) : DB :=
  { products := db.products.map (fun p =>
      { p with stock := p.stock - requestedQty (cartItemsOf db) p.id }),
    orderItems := bindCartLines db.orderItems db.nextOrderId,
    orders := db.orders ++
      [Order.mk db.nextOrderId u (roundCents (totalAmountJs (cartItemsOf db))) "completed"],
    nextProductId := db.nextProductId,
    nextItemId := db.nextItemId,
    nextOrderId := db.nextOrderId + 1 }

/-! ## Concrete states used as witnesses and counterexamples

Each is reached from an initial catalog through the embedded handlers
themselves, so every claim is exercised on an API-reachable state. -/

/-- Catalog with one product: price 10.00, stock 5. -/
def gadgetBase : DB :=
  { products := [Product.mk 1 "Gadget" none 10 5 none],
    orderItems := [], orders := [],
    nextProductId := 2, nextItemId := 1, nextOrderId := 1 }

/-- One unit of the gadget added to the cart while its price is 10.00
(snapshot 10.00 recorded on the cart line). -/
def priceChangeCart : DB :=
  (addToCart 7 (AddCartRequest.mk (some 1) (some 1)) gadgetBase).2

/-- The catalog price then raised to 20.00 before checkout. -/
def priceChangeDb : DB :=
  (updateProduct 1 (UpdateProductRequest.mk none none (some 20) none none) priceChangeCart).2

/-- Catalog with a single unit in stock: price 5.00, stock 1. -/
def lastUnitBase : DB :=
  { products := [Product.mk 1 "Last unit" none 5 1 none],
    orderItems := [], orders := [],
    nextProductId := 2, nextItemId := 1, nextOrderId := 1 }

/-- Two users each put one unit of the single-stock product in the (global)
cart: two lines, each passing the per-line stock check. -/
def lastUnitDb : DB :=
  (addToCart 8 (AddCartRequest.mk (some 1) (some 1))
    (addToCart 7 (AddCartRequest.mk (some 1) (some 1)) lastUnitBase).2).2

/-- Catalog with one product priced 0.10 (exact decimal). -/
def dimeBase : DB :=
  { products := [Product.mk 1 "Dime toy" none (1 / 10) 5 none],
    orderItems := [], orders := [],
    nextProductId := 2, nextItemId := 1, nextOrderId := 1 }

/-- Three units of the 0.10 product in the cart. -/
def dimeDb : DB :=
  (addToCart 7 (AddCartRequest.mk (some 1) (some 3)) dimeBase).2

/-- The end-to-end scenario of the specification: price 25.50, stock 100,
two units in the cart. -/
def mouseCartDb : DB :=
  (addToCart 7 (AddCartRequest.mk (some 1) (some 2))
    { products := [Product.mk 1 "Wireless Mouse" none (51 / 2) 100 none],
      orderItems := [], orders := [],
      nextProductId := 2, nextItemId := 1, nextOrderId := 1 }).2

/-- A store whose only cart line is already bound to an order: zero
unassigned lines. -/
def boundOnlyDb : DB :=
  { products := [Product.mk 1 "Gadget" none 10 5 none],
    orderItems := [CartLine.mk 1 (some 1) 1 1 10],
    orders := [Order.mk 1 7 10 "completed"],
    nextProductId := 2, nextItemId := 2, nextOrderId := 2 }

/-- A token validator accepting exactly the token string "good". -/
def demoValidate : String → Option AuthUser := fun t =>
  if t = "good" then some (AuthUser.mk 1 "a@example.com") else none

section
/- The Batteries implementations of rational arithmetic are marked
irreducible; re-allow unfolding locally so that concrete runs of the
service can be evaluated by `decide`. -/
attribute [local semireducible] Rat.mul Rat.add Rat.sub Rat.inv

/-! ## Helper lemmas about the checkout transaction -/

theorem requestedQty_nil (pid : Nat) : requestedQty [] pid = 0 := rfl

theorem requestedQty_cons (it : CheckoutItem) (rest : List CheckoutItem) (pid : Nat) :
    requestedQty (it :: rest) pid =
      (if it.productId = pid then it.quantity else 0) + requestedQty rest pid := by
  by_cases h : it.productId = pid <;>
    simp [requestedQty, List.filter_cons, h]

/-- The queued per-line stock updates amount to decrementing every product
by the aggregate quantity the selected lines request of it. -/
theorem applyStockUpdates_eq (items : List CheckoutItem) (ps : List Product) :
    applyStockUpdates ps items =
      ps.map (fun p => { p with stock := p.stock - requestedQty items p.id }) := by
  induction items generalizing ps with
  | nil =>
    simp only [applyStockUpdates, List.foldl_nil, requestedQty_nil, sub_zero]
    exact (List.map_id ps).symm
  | cons it rest ih =>
    have step : applyStockUpdates ps (it :: rest) =
        applyStockUpdates (applyStockUpdate ps it.productId it.quantity) rest := rfl
    rw [step, ih, applyStockUpdate, List.map_map]
    refine List.map_congr_left (fun p _ => ?_)
    by_cases h : p.id = it.productId
    · simp only [Function.comp_apply, if_pos h, requestedQty_cons,
        if_pos h.symm, sub_sub]
    · have h2 : ¬(it.productId = p.id) := fun hc => h hc.symm
      simp only [Function.comp_apply, if_neg h, requestedQty_cons,
        if_neg h2, zero_add]

theorem applyStockUpdates_nil_left (items : List CheckoutItem) :
    applyStockUpdates [] items = [] := by
  rw [applyStockUpdates_eq]; rfl

/-- On a non-empty cart all of whose lines pass the stock check, the
transaction commits: the result is 200 with the binary64 total, and the
new state is `commitState`. -/
theorem checkoutF_success_eq (u : Nat) (db : DB)
    (hne : (cartItemsOf db).isEmpty = false)
    (hok : (cartItemsOf db).find? (fun it => it.stock < it.quantity) = none) :
    checkoutF false u db =
      (.success db.nextOrderId (totalAmountJs (cartItemsOf db)), commitState u db) := by
  simp only [checkoutF, Bool.false_eq_true, if_false, hne, hok, commitState,
    applyStockUpdates_eq]

/-- Any outcome other than 200 leaves the store exactly as it was: every
such path ends in `ROLLBACK`. -/
theorem checkoutF_not_success (crash : Bool) (u : Nat) (db : DB)
    (h : (checkoutF crash u db).1.isSuccess = false) :
    (checkoutF crash u db).2 = db := by
  cases crash with
  | true => rfl
  | false =>
    cases hE : (cartItemsOf db).isEmpty with
    | true => simp [checkoutF, hE]
    | false =>
      cases hF : (cartItemsOf db).find? (fun it => it.stock < it.quantity) with
      | some it => simp [checkoutF, hE, hF]
      | none =>
        simp [checkoutF, hE, hF, CheckoutResult.isSuccess] at h

/-- A 200 outcome pins everything down: no crash, a non-empty cart, every
line passing the stock check, the returned id and total, and the committed
state. -/
theorem checkoutF_success_spec (crash : Bool) (u : Nat) (db : DB) (oid : Nat) (t : ℚ)
    (h : (checkoutF crash u db).1 = .success oid t) :
    crash = false ∧
    (cartItemsOf db).isEmpty = false ∧
    (∀ it ∈ cartItemsOf db, it.quantity ≤ it.stock) ∧
    oid = db.nextOrderId ∧
    t = totalAmountJs (cartItemsOf db) ∧
    (checkoutF crash u db).2 = commitState u db := by
  have hcrash : crash = false := by
    cases crash with
    | false => rfl
    | true => simp [checkoutF] at h
  subst hcrash
  have hne : (cartItemsOf db).isEmpty = false := by
    cases hE : (cartItemsOf db).isEmpty with
    | false => rfl
    | true => simp [checkoutF, hE] at h
  have hok : (cartItemsOf db).find? (fun it => it.stock < it.quantity) = none := by
    cases hF : (cartItemsOf db).find? (fun it => it.stock < it.quantity) with
    | none => rfl
    | some it => simp [checkoutF, hne, hF] at h
  have hall : ∀ it ∈ cartItemsOf db, it.quantity ≤ it.stock := by
    intro it hit
    have := List.find?_eq_none.mp hok it hit
    simpa using this
  have heq := checkoutF_success_eq u db hne hok
  rw [heq] at h
  have hids := (CheckoutResult.success.injEq _ _ _ _).mp h.symm
  exact ⟨rfl, hne, hall, hids.1, hids.2, by rw [heq]⟩

/-! ## The claims -/

/-- **C1.**  The claim asks that a checkout's returned and persisted
`total_amount` be `Σ quantity × unit-price snapshot`, unaffected by catalog
price updates between add-to-cart and checkout.  The code violates it: the
checkout `SELECT` reads `p.price` (current catalog price), not the
snapshot `oi.price` it stored at add time.  Concretely: add one unit at
price 10.00, raise the catalog price to 20.00, check out — the snapshot
sum is 10 but the returned and persisted total is 20. -/
theorem checkout_total_ignores_snapshot :
    snapshotTotal priceChangeDb = 10 ∧
    (checkout 7 priceChangeDb).1 = .success 1 20 ∧
    (checkout 7 priceChangeDb).2.orders.map Order.totalAmount = [20] ∧
    (20 : ℚ) ≠ 10 := by decide

/-- **C2.**  The claim asks that stock never go negative and that a cart
requesting in aggregate more than the stock be rejected.  The code
violates it: each line is checked against the stock value read by the
join `SELECT`, so two cart lines for the last unit of a product both pass
(`1 > 1` is false for each) and the two queued decrements drive the stock
to −1; moreover `PUT /api/products/:id` installs a negative stock with no
validation. -/
theorem checkout_drives_stock_negative :
    (checkout 7 lastUnitDb).1.isSuccess = true ∧
    (checkout 7 lastUnitDb).2.products.map Product.stock = [-1] ∧
    (updateProduct 1 (UpdateProductRequest.mk none none none (some (-5)) none)
      lastUnitBase).2.products.map Product.stock = [-5] := by decide

/-- **C3.**  Checkout is all-or-nothing: on every non-success outcome
(empty cart, insufficient stock, or any exception inside the transaction,
modelled by `crash`) the store is returned exactly as it was, and on
success the order row, every stock decrement (the aggregate of the
selected lines per product) and every cart-line binding are committed
together. -/
theorem checkout_all_or_nothing (crash : Bool) (u : Nat) (db : DB) :
    ((checkoutF crash u db).1.isSuccess = false → (checkoutF crash u db).2 = db) ∧
    (∀ oid t, (checkoutF crash u db).1 = .success oid t →
      oid = db.nextOrderId ∧
      (checkoutF crash u db).2.orders =
        db.orders ++ [Order.mk db.nextOrderId u (roundCents t) "completed"] ∧
      (checkoutF crash u db).2.orderItems = bindCartLines db.orderItems db.nextOrderId ∧
      (checkoutF crash u db).2.products = db.products.map (fun p =>
        { p with stock := p.stock - requestedQty (cartItemsOf db) p.id })) := by
  refine ⟨checkoutF_not_success crash u db, ?_⟩
  intro oid t h
  obtain ⟨-, -, -, hoid, ht, hdb⟩ := checkoutF_success_spec crash u db oid t h
  subst ht
  rw [hdb]
  exact ⟨hoid, rfl, rfl, rfl⟩

/-- Witness for C3 at the specification's end-to-end scenario (price
25.50, two units): the committed order row. -/
theorem checkout_all_or_nothing_witness :
    (checkoutF false 7 mouseCartDb).2.orders =
      mouseCartDb.orders ++ [Order.mk mouseCartDb.nextOrderId 7 (roundCents 51) "completed"] :=
  (((checkout_all_or_nothing false 7 mouseCartDb).2 1 51 (by decide)).2).1

/-- **C5.**  The claim asks for exact fixed-point decimal totals with no
floating-point rounding drift.  The code computes
`totalAmount += parseFloat(item.price) * item.quantity` in binary64: with
price 0.10 and quantity 3 (which passes the stock check), the returned
total is 5404319552844596/2⁵⁴ = 0.30000000000000004…, not 3 × 0.10. -/
theorem checkout_total_floating_drift :
    (∀ it ∈ cartItemsOf dimeDb, it.quantity ≤ it.stock) ∧
    (checkout 7 dimeDb).1 = .success 1 (5404319552844596 / 2 ^ 54) ∧
    (5404319552844596 / 2 ^ 54 : ℚ) ≠ 3 * (1 / 10) := by decide

/-- **C5 (amended).**  What the code does compute: on success the returned
total is the binary64 left fold of `parseFloat(current price) × quantity`
over the joined cart lines, and the persisted `NUMERIC(10,2)` order row
holds that float rounded to cents. -/
theorem checkout_total_binary64 (crash : Bool) (u : Nat) (db : DB) (oid : Nat) (t : ℚ)
    (h : (checkoutF crash u db).1 = .success oid t) :
    t = totalAmountJs (cartItemsOf db) ∧
    (checkoutF crash u db).2.orders =
      db.orders ++ [Order.mk db.nextOrderId u (roundCents t) "completed"] := by
  obtain ⟨-, -, -, -, ht, hdb⟩ := checkoutF_success_spec crash u db oid t h
  subst ht
  rw [hdb]
  exact ⟨rfl, rfl⟩

/-- Witness for the amended C5 at the 0.10 × 3 cart. -/
theorem checkout_total_binary64_witness :
    (5404319552844596 / 2 ^ 54 : ℚ) = totalAmountJs (cartItemsOf dimeDb) :=
  (checkout_total_binary64 false 7 dimeDb 1 (5404319552844596 / 2 ^ 54) (by decide)).1

/-- **C6.**  A checkout finding zero unassigned cart lines rolls back and
reports the empty cart: no order row is created and the store is returned
unchanged. -/
theorem checkout_empty_cart_rejects (u : Nat) (db : DB)
    (h : db.orderItems.filter (fun oi => oi.orderId.isNone) = []) :
    checkout u db = (.emptyCart, db) := by
  have hnil : cartItemsOf db = [] := by
    unfold cartItemsOf
    rw [List.filterMap_eq_nil_iff]
    intro oi hoi
    have hno := List.filter_eq_nil_iff.mp h oi hoi
    cases ho : oi.orderId.isNone with
    | false => simp [ho]
    | true => exact absurd ho hno
  unfold checkout checkoutF
  simp [hnil]

/-- Witness for C6: a store whose only cart line is already bound to an
order. -/
theorem checkout_empty_cart_rejects_witness :
    checkout 9 boundOnlyDb = (.emptyCart, boundOnlyDb) :=
  checkout_empty_cart_rejects 9 boundOnlyDb (by decide)

/-- **C7.**  The cart is one global set: `order_items` rows carry no user,
so `POST /api/cart` produces the same state whichever user calls it,
`GET /api/cart` returns every unassigned line, and a checkout by user `u`
totals every unassigned line in the store and binds them all to `u`'s new
order. -/
theorem cart_global_across_users (u1 u2 : Nat) (req : AddCartRequest) (db : DB)
    (oid : Nat) (t : ℚ) :
    addToCart u1 req db = addToCart u2 req db ∧
    (∀ oi ∈ db.orderItems, oi.orderId = none →
      ∀ p ∈ db.products, p.id = oi.productId →
      ∃ v ∈ getCart db, v.product_id = oi.productId ∧ v.quantity = oi.quantity ∧
        v.price = oi.price) ∧
    ((checkout u1 db).1 = .success oid t →
      t = totalAmountJs (cartItemsOf db) ∧
      (checkout u1 db).2.orderItems =
        db.orderItems.map (fun oi =>
          if oi.orderId.isNone then { oi with orderId := some oid } else oi) ∧
      Order.mk oid u1 (roundCents t) "completed" ∈ (checkout u1 db).2.orders) := by
  refine ⟨rfl, ?_, ?_⟩
  · intro oi hoi ho p hp hpid
    have hs : (db.products.find? (fun q => q.id = oi.productId)).isSome := by
      rw [List.find?_isSome]
      exact ⟨p, hp, by simp [hpid]⟩
    obtain ⟨p', hp'⟩ := Option.isSome_iff_exists.mp hs
    refine ⟨CartView.mk oi.productId oi.quantity oi.price p'.name p'.imageUrl,
      ?_, rfl, rfl, rfl⟩
    exact List.mem_filterMap.mpr ⟨oi, hoi, by simp [ho, hp']⟩
  · intro h
    obtain ⟨-, -, -, hoid, ht, hdb⟩ := checkoutF_success_spec false u1 db oid t h
    subst ht
    subst hoid
    unfold checkout at h ⊢
    rw [hdb]
    refine ⟨rfl, rfl, ?_⟩
    simp [commitState]

/-- Witness for C7 at the end-to-end scenario: the order the checkout by
user 7 commits contains the whole global cart total. -/
theorem cart_global_across_users_witness :
    Order.mk 1 7 (roundCents 51) "completed" ∈ (checkout 7 mouseCartDb).2.orders :=
  ((cart_global_across_users 7 8 (AddCartRequest.mk (some 1) (some 2)) mouseCartDb
    1 51).2.2 (by decide)).2.2

/-- **C8 (counterexample).**  The claim asks that every stored cart line
have a strictly positive integer quantity.  `POST /api/cart` only tests
JavaScript falsiness (`!quantity`), so a request with quantity −3 is
accepted and stored verbatim. -/
theorem addToCart_accepts_negative_quantity :
    (addToCart 7 (AddCartRequest.mk (some 1) (some (-3))) gadgetBase).1 =
      .created (CartLine.mk 1 none 1 (-3) 10) ∧
    (addToCart 7 (AddCartRequest.mk (some 1) (some (-3)))
      gadgetBase).2.orderItems.map CartLine.quantity = [-3] ∧
    ¬(0 < (-3 : Int)) := by decide

/-- **C8 (amended).**  What the code guarantees: a stored line's quantity
is exactly the requested one and is nonzero (zero is falsy and rejected),
but nothing forces it positive. -/
theorem addToCart_stores_nonzero_quantity (u : Nat) (req : AddCartRequest)
    (db : DB) (line : CartLine) (h : (addToCart u req db).1 = .created line) :
    req.quantity = some line.quantity ∧ line.quantity ≠ 0 ∧
    (addToCart u req db).2.orderItems = db.orderItems ++ [line] := by
  obtain ⟨pid?, q?⟩ := req
  cases pid? with
  | none => simp [addToCart] at h
  | some pid =>
    cases q? with
    | none => simp [addToCart] at h
    | some q =>
      simp only [addToCart] at h ⊢
      split at h
      next hz => exact absurd h (by simp)
      next hz =>
        cases hp : db.products.find? (fun p => p.id = pid) with
        | none =>
          rw [hp] at h
          exact absurd h (by simp)
        | some p =>
          rw [hp] at h
          simp only [AddCartResult.created.injEq] at h
          subst h
          refine ⟨rfl, ?_, ?_⟩
          · intro hq0
            have hq : q = 0 := hq0
            exact hz (by simp [hq])
          · rw [if_neg hz]

/-- Witness for the amended C8: the negative-quantity line is stored
verbatim and is nonzero. -/
theorem addToCart_stores_nonzero_quantity_witness :
    (AddCartRequest.mk (some 1) (some (-3))).quantity = some ((-3 : Int)) ∧
    ((-3 : Int) ≠ 0) ∧
    (addToCart 7 (AddCartRequest.mk (some 1) (some (-3))) gadgetBase).2.orderItems =
      gadgetBase.orderItems ++ [CartLine.mk 1 none 1 (-3) 10] :=
  addToCart_stores_nonzero_quantity 7 (AddCartRequest.mk (some 1) (some (-3)))
    gadgetBase (CartLine.mk 1 none 1 (-3) 10) (by decide)

/-- **C9.**  The `verifyToken` middleware: with no bearer token in the
`Authorization` header the response is 401 and the handler never runs
(the status is 401 for every handler); with a token the validator rejects
(invalid or expired) the response is 403 likewise; with a valid token the
handler runs with the identity carried by the token. -/
theorem verifyToken_spec (validate : String → Option AuthUser) (header : Option String) :
    (extractToken header = none →
      ∀ hs : AuthUser → Nat, protectedStatus validate header hs = 401) ∧
    (∀ tok, extractToken header = some tok → validate tok = none →
      ∀ hs : AuthUser → Nat, protectedStatus validate header hs = 403) ∧
    (∀ tok u, extractToken header = some tok → validate tok = some u →
      ∀ hs : AuthUser → Nat, protectedStatus validate header hs = hs u) := by
  refine ⟨?_, ?_, ?_⟩
  · intro h hs
    simp [protectedStatus, verifyToken, h]
  · intro tok h hv hs
    simp [protectedStatus, verifyToken, h, hv]
  · intro tok u h hv hs
    simp [protectedStatus, verifyToken, h, hv]

/-- Witness for C9: a valid bearer token reaches the handler, which
answers with the token's identity. -/
theorem verifyToken_spec_witness :
    protectedStatus demoValidate (some "Bearer good") (fun u => 200 + u.userId) = 201 :=
  (verifyToken_spec demoValidate (some "Bearer good")).2.2 "good"
    (AuthUser.mk 1 "a@example.com") (by decide) (by decide) (fun u => 200 + u.userId)

/-- **C10.**  `POST /api/products` rejects with 400 exactly when one of
name, price, stock is JavaScript-falsy; in particular price 0 or stock 0 —
values the schema itself permits — are rejected as if missing, with the
store unchanged. -/
theorem createProduct_rejects_falsy (req : CreateProductRequest) (db : DB) :
    ((createProduct req db).1 = .badRequest ↔
      (jsFalsyStr req.name || jsFalsyRat req.price || jsFalsyInt req.stock) = true) ∧
    (req.price = some 0 → createProduct req db = (.badRequest, db)) ∧
    (req.stock = some 0 → createProduct req db = (.badRequest, db)) := by
  refine ⟨?_, ?_, ?_⟩
  · unfold createProduct
    split
    next hc => simp [hc]
    next hc => simp [hc]
  · intro hp
    unfold createProduct
    simp [hp, jsFalsyRat]
  · intro hs
    unfold createProduct
    simp [hs, jsFalsyInt]

/-- Witness for C10: a zero-priced product is rejected. -/
theorem createProduct_rejects_falsy_witness :
    createProduct (CreateProductRequest.mk (some "Sticker") none (some 0) (some 5) none)
      gadgetBase = (.badRequest, gadgetBase) :=
  (createProduct_rejects_falsy
    (CreateProductRequest.mk (some "Sticker") none (some 0) (some 5) none) gadgetBase).2.1 rfl

end

end ECom
